import Mathlib

/-
Verification of the story scoring engine in
business-analysis-app/shared/userStoryAgent.js.

The engine is a pure function from two strings (story text and
acceptance-criteria text) to a report object.  JavaScript strings are
modelled as Lean String values (ASCII-faithful: toLowerCase, trim and
includes are modelled on the ASCII range, which covers every keyword and
separator the engine uses); JavaScript numbers are modelled as Int/Nat
with the single floating-point expression Math.round((a/100)*100)
modelled exactly over the rationals; the dynamically-shaped report
object is modelled as a structure in which keys the code attaches only
on some paths are Option fields.  Array.prototype.find returning
undefined is modelled as Option.
-/

namespace BAToolbox

/-- ASCII lowercasing of one character, the effect of JavaScript
toLowerCase on the ASCII range. -/
def lowChar (c : Char) : Char :=
  if 'A' ≤ c ∧ c ≤ 'Z' then Char.ofNat (c.toNat + 32) else c

/-- Exact list-of-characters prefix test. -/
def startsWithEq : List Char → List Char → Bool
  | [], _ => true
  | _ :: _, [] => false
  | a :: as, b :: bs => (a == b) && startsWithEq as bs

/-- Substring containment (needle, haystack), the semantics of
JavaScript String.prototype.includes. -/
def containsSub (needle : List Char) : List Char → Bool
  | [] => startsWithEq needle []
  | c :: t => startsWithEq needle (c :: t) || containsSub needle t

/-- Case-insensitive prefix test (needle, haystack), used by the
regex model for the /i flag. -/
def startsWithCI : List Char → List Char → Bool
  | [], _ => true
  | _ :: _, [] => false
  | a :: as, b :: bs => (lowChar a == lowChar b) && startsWithCI as bs

/-- Split a list at the last (rightmost) case-insensitive occurrence of
a non-empty separator, returning the parts before and after it.  This
realises the greedy backtracking of a leading .* in the engine regex:
the capture before the separator is maximised. -/
def splitAtLastCI (sep : List Char) : List Char → Option (List Char × List Char)
  | [] => if startsWithCI sep [] then some ([], []) else none
  | c :: rest =>
    match splitAtLastCI sep rest with
    | some (pre, post) => some (c :: pre, post)
    | none =>
      if startsWithCI sep (c :: rest) then some ([], (c :: rest).drop sep.length)
      else none

/-- Characters matched by the regex metacharacter dot: everything but
the JavaScript line terminators. -/
def isDotChar (c : Char) : Bool :=
  c != '\n' && c != '\r' && c != '\u2028' && c != '\u2029'

/-- Literal separator ", I want " of the engine regex. -/
def WANT_SEP : List Char := ", I want ".toList

/-- Literal separator ", so that " of the engine regex. -/
def SO_THAT_SEP : List Char := ", so that ".toList

/-- Match the tail of the engine regex (.*), I want (.*), so that (.*)
against the text following the matched As a/an prefix.  The three
captures cannot cross a line terminator, group 1 and then group 2 are
maximised (greedy backtracking), and group 3 runs to the end of the
line. -/
def matchBody (body : List Char) : Option (List Char × List Char × List Char) :=
  match splitAtLastCI SO_THAT_SEP (body.takeWhile isDotChar) with
  | none => none
  | some (u, g3) =>
    match splitAtLastCI WANT_SEP u with
    | none => none
    | some (g1, g2) => some (g1, g2, g3)

/-- Attempt the engine regex at the start of the given text: the
case-insensitive literal As a, an optional n (the two continuations are
mutually exclusive because the next character cannot be both n and a
space), a space, then the three captures. -/
def matchAsA (l : List Char) : Option (List Char × List Char × List Char) :=
  if startsWithCI ("As a".toList) l then
    match l.drop 4 with
    | [] => none
    | c :: r =>
      if lowChar c == 'n' then
        match r with
        | ' ' :: r2 => matchBody r2
        | _ => none
      else if c == ' ' then matchBody r
      else none
  else none

/-- Leftmost match of the engine regex: the first start position at
which the whole pattern succeeds, as String.prototype.match finds it. -/
def matchFrom : List Char → Option (List Char × List Char × List Char)
  | [] => none
  | c :: t =>
    match matchAsA (c :: t) with
    | some m => some m
    | none => matchFrom t

/-- CONFIG.STORY_FORMAT_REGEX applied to a story by story.match:
either the three captures (persona, goal, value) or no match. -/
def storyMatch (story : String) : Option (String × String × String) :=
  (matchFrom story.toList).map (fun m => (String.mk m.1, String.mk m.2.1, String.mk m.2.2))

/-- JavaScript toLowerCase, modelled on the ASCII range. -/
def jsToLower (s : String) : String := String.mk (s.toList.map lowChar)

/-- JavaScript String.prototype.includes. -/
def jsIncludes (hay needle : String) : Bool := containsSub needle.toList hay.toList

/-- The recurring engine idiom text.toLowerCase().includes(keyword). -/
def lowerIncludes (s kw : String) : Bool := jsIncludes (jsToLower s) kw

/-- ASCII whitespace stripped by JavaScript trim. -/
def isJsSpace (c : Char) : Bool :=
  c == ' ' || c == '\t' || c == '\n' || c == '\r' || c == '\x0B' || c == '\x0C'

/-- JavaScript String.prototype.trim (ASCII whitespace). -/
def jsTrim (s : String) : String :=
  String.mk (((s.toList.dropWhile isJsSpace).reverse.dropWhile isJsSpace).reverse)

/-- Split on newline characters, the semantics of split applied to a
single-character separator: empty segments are kept. -/
def splitNlChars : List Char → List (List Char)
  | [] => [[]]
  | c :: t =>
    if c == '\n' then [] :: splitNlChars t
    else
      match splitNlChars t with
      | [] => [[c]]
      | h :: r => (c :: h) :: r

/-- acceptanceCriteriaText.split of the engine. -/
def jsSplitNl (s : String) : List String := (splitNlChars s.toList).map String.mk

/-- Array.prototype.join with a separator. -/
def joinSep (sep : String) : List String → String
  | [] => ""
  | [x] => x
  | x :: y :: xs => x ++ sep ++ joinSep sep (y :: xs)

/-- CONFIG.THRESHOLDS.SHORT_STORY_LENGTH. -/
def SHORT_STORY_LENGTH : Nat := 25

/-- CONFIG.THRESHOLDS.LONG_STORY_LENGTH. -/
def LONG_STORY_LENGTH : Nat := 200

/-- CONFIG.THRESHOLDS.MAX_ACCEPTANCE_CRITERIA. -/
def MAX_ACCEPTANCE_CRITERIA : Nat := 7

/-- CONFIG.KEYWORDS.AMBIGUOUS. -/
def AMBIGUOUS_KEYWORDS : List String := ["should", "could", "might"]

/-- CONFIG.KEYWORDS.DEPENDENCIES. -/
def DEPENDENCY_KEYWORDS : List String := ["dependent on", "after", "following", "once"]

/-- CONFIG.KEYWORDS.TECHNICAL. -/
def TECHNICAL_KEYWORDS : List String :=
  ["database schema", "api endpoint", "react component", "algorithm", "sql query"]

/-- CONFIG.KEYWORDS.TESTABLE_AC. -/
def TESTABLE_AC_KEYWORDS : List String :=
  ["verify that", "ensure that", "given", "when", "then", "confirm that"]

/-- CONFIG.SCORING.FORMAT_SUCCESS. -/
def FORMAT_SUCCESS : Int := 10

/-- CONFIG.SCORING.FORMAT_FAIL. -/
def FORMAT_FAIL : Int := 2

/-- CONFIG.SCORING.CLARITY_BASE. -/
def CLARITY_BASE : Int := 10

/-- CONFIG.SCORING.CLARITY_BONUS_CONCISE. -/
def CLARITY_BONUS_CONCISE : Int := 5

/-- CONFIG.SCORING.CLARITY_BONUS_SPECIFIC. -/
def CLARITY_BONUS_SPECIFIC : Int := 5

/-- CONFIG.SCORING.AC_PROVIDED. -/
def AC_PROVIDED : Int := 15

/-- CONFIG.SCORING.AC_EMPTY. -/
def AC_EMPTY : Int := 5

/-- CONFIG.SCORING.AC_MISSING. -/
def AC_MISSING : Int := 0

/-- CONFIG.SCORING.AC_NON_TESTABLE_DEDUCTION. -/
def AC_NON_TESTABLE_DEDUCTION : Int := 5

/-- CONFIG.SCORING.INVEST_DEFAULT_HIGH. -/
def INVEST_DEFAULT_HIGH : Int := 8

/-- CONFIG.SCORING.INVEST_DEFAULT_MEDIUM. -/
def INVEST_DEFAULT_MEDIUM : Int := 6

/-- CONFIG.SCORING.INVEST_DEFAULT_LOW. -/
def INVEST_DEFAULT_LOW : Int := 3

/-- One readiness band of CONFIG.READINESS_CATEGORIES. -/
structure Category where
  score : Int
  label : String
  summary : String
deriving DecidableEq

/-- First entry of CONFIG.READINESS_CATEGORIES. -/
def CAT_EXCELLENT : Category :=
  ⟨90, "✅ Excellent – Ready for Development",
   "Story is well-formed, clear, and meets all INVEST criteria. Minimal or no changes needed."⟩

/-- Second entry of CONFIG.READINESS_CATEGORIES. -/
def CAT_STANDARD : Category :=
  ⟨71, "⚠️ At Standard Expected – Minor Refinement Needed",
   "Mostly ready with small gaps. Can be addressed quickly."⟩

/-- Third entry of CONFIG.READINESS_CATEGORIES. -/
def CAT_IMPROVE : Category :=
  ⟨50, "❗ Requires Improvement – Needs Refinement",
   "Multiple issues present. Not ready for development without rework."⟩

/-- Fourth entry of CONFIG.READINESS_CATEGORIES. -/
def CAT_NOT_READY : Category :=
  ⟨0, "🚫 Not Ready – Fundamentally Incomplete",
   "Lacks essential components. Requires major revision or clarification."⟩

/-- CONFIG.READINESS_CATEGORIES, in source order. -/
def READINESS_CATEGORIES : List Category :=
  [CAT_EXCELLENT, CAT_STANDARD, CAT_IMPROVE, CAT_NOT_READY]

/-- getReadinessCategory: first category whose threshold the score
meets or exceeds; Array.prototype.find returning undefined when none
does is modelled as Option. -/
def getReadinessCategory (score : Int) : Option Category :=
  READINESS_CATEGORIES.find? (fun cat => decide (score ≥ cat.score))

/-- Result record of analyzeAcceptanceCriteria. -/
structure ACAnalysis where
  criteria : List String
  testableKeywordsFound : Bool
  nonTestableCount : Nat
deriving DecidableEq

/-- Whether one acceptance criterion line contains a testable keyword
(the isTestable check inside the forEach of analyzeAcceptanceCriteria). -/
def isTestableCriterion (c : String) : Bool :=
  TESTABLE_AC_KEYWORDS.any (fun kw => lowerIncludes c kw)

/-- analyzeAcceptanceCriteria: empty result for absent or
whitespace-only text, otherwise the non-blank lines together with the
testable-keyword tallies accumulated by the forEach loop. -/
def analyzeAcceptanceCriteria (acText : String) : ACAnalysis :=
  if acText = "" ∨ jsTrim acText = "" then ⟨[], false, 0⟩
  else
    ⟨(jsSplitNl acText).filter (fun c => ¬(jsTrim c = "")),
     ((jsSplitNl acText).filter (fun c => ¬(jsTrim c = ""))).any isTestableCriterion,
     (((jsSplitNl acText).filter (fun c => ¬(jsTrim c = ""))).filter
       (fun c => !(isTestableCriterion c))).length⟩

/-- A score together with its feedback string, one sub-result of
analyzeClarityAndRequirement. -/
structure SubScore where
  score : Int
  feedback : String
deriving DecidableEq

/-- The record returned by analyzeClarityAndRequirement. -/
structure ClarityAnalysis where
  total : Int
  formatCheck : SubScore
  clarityAmbiguity : SubScore
  acceptanceCriteria : SubScore
deriving DecidableEq

/-- Format sub-score of analyzeClarityAndRequirement: FORMAT_SUCCESS
on a regex match, FORMAT_FAIL otherwise. -/
def formatScoreOf (story : String) : Int :=
  if (storyMatch story).isSome then FORMAT_SUCCESS else FORMAT_FAIL

/-- Format feedback of analyzeClarityAndRequirement. -/
def formatFeedbackOf (story : String) : String :=
  if (storyMatch story).isSome then
    "Story follows the standard \x27As a [persona], I want [goal], so that [value]\x27 format."
  else
    "Story does not strictly follow the \x27As a [persona], I want [goal], so that [value]\x27 format. This helps ensure role, action, and benefit are clear."

/-- The ambiguous-keyword scan of analyzeClarityAndRequirement. -/
def hasAmbiguousTerms (story : String) : Bool :=
  AMBIGUOUS_KEYWORDS.any (fun t => lowerIncludes story t)

/-- Clarity sub-score: base 10, +5 unless the story is shorter than the
short-story threshold, +5 unless an ambiguous keyword occurs, capped at
15 by Math.min. -/
def clarityScoreOf (story : String) : Int :=
  min 15
    ((CLARITY_BASE + (if story.length < SHORT_STORY_LENGTH then 0 else CLARITY_BONUS_CONCISE))
      + (if hasAmbiguousTerms story then 0 else CLARITY_BONUS_SPECIFIC))

/-- Clarity feedback: the joined feedback items, or the all-clear
message when no item was pushed. -/
def clarityFeedbackOf (story : String) : String :=
  if ((if story.length < SHORT_STORY_LENGTH then
        ["Story seems very short, ensure it\x27s sufficiently detailed."] else [])
      ++ (if hasAmbiguousTerms story then
        ["Avoid ambiguous terms like \x27should\x27, \x27could\x27, or \x27might\x27. Be specific."] else [])).length > 0 then
    joinSep " "
      ((if story.length < SHORT_STORY_LENGTH then
          ["Story seems very short, ensure it\x27s sufficiently detailed."] else [])
        ++ (if hasAmbiguousTerms story then
          ["Avoid ambiguous terms like \x27should\x27, \x27could\x27, or \x27might\x27. Be specific."] else []))
  else "Language appears reasonably clear."

/-- Acceptance-criteria sub-score of analyzeClarityAndRequirement:
AC_MISSING for falsy text, AC_EMPTY when no non-blank line survives,
otherwise AC_PROVIDED minus the deduction when more than half the lines
lack a testable keyword (the JavaScript comparison n > len / 2 over
exact small integers is the integer comparison 2 n > len). -/
def acScoreOf (acText : String) : Int :=
  if acText = "" then AC_MISSING
  else if (analyzeAcceptanceCriteria acText).criteria.length > 0 then
    (if 2 * (analyzeAcceptanceCriteria acText).nonTestableCount >
        (analyzeAcceptanceCriteria acText).criteria.length then
      AC_PROVIDED - AC_NON_TESTABLE_DEDUCTION
    else AC_PROVIDED)
  else AC_EMPTY

/-- Acceptance-criteria feedback of analyzeClarityAndRequirement. -/
def acFeedbackOf (acText : String) : String :=
  if acText = "" then
    "Acceptance criteria are missing. Clear, testable ACs are essential. Consider using the \x27Given/When/Then\x27 format."
  else if (analyzeAcceptanceCriteria acText).criteria.length > 0 then
    "Acceptance criteria provided (" ++ toString (analyzeAcceptanceCriteria acText).criteria.length
      ++ " criteria found). Ensure they are specific and testable."
      ++ (if 2 * (analyzeAcceptanceCriteria acText).nonTestableCount >
            (analyzeAcceptanceCriteria acText).criteria.length then
        " Some ACs may not be easily testable; consider phrasing with keywords like \x27Verify that...\x27 or using Gherkin (Given/When/Then)."
      else "")
  else
    "Acceptance criteria section is present but empty. Please define clear, testable acceptance criteria."

/-- analyzeClarityAndRequirement: the three sub-results and their sum. -/
def analyzeClarityAndRequirement (story acText : String) : ClarityAnalysis :=
  ⟨formatScoreOf story + clarityScoreOf story + acScoreOf acText,
   ⟨formatScoreOf story, formatFeedbackOf story⟩,
   ⟨clarityScoreOf story, clarityFeedbackOf story⟩,
   ⟨acScoreOf acText, acFeedbackOf acText⟩⟩

/-- A score together with its justification string, one INVEST
sub-result of analyzeINVEST. -/
structure InvestItem where
  score : Int
  justification : String
deriving DecidableEq

/-- The record returned by analyzeINVEST. -/
structure InvestAnalysis where
  total : Int
  independent : InvestItem
  negotiable : InvestItem
  valuable : InvestItem
  estimable : InvestItem
  small : InvestItem
  testable : InvestItem
deriving DecidableEq

/-- The dependency-keyword scan of the Independent assessment. -/
def hasDependencyKeywords (story : String) : Bool :=
  DEPENDENCY_KEYWORDS.any (fun t => lowerIncludes story t)

/-- Independent score: low on a dependency keyword, else medium. -/
def independentScoreOf (story : String) : Int :=
  if hasDependencyKeywords story then INVEST_DEFAULT_LOW else INVEST_DEFAULT_MEDIUM

/-- Independent justification. -/
def independentJustificationOf (story : String) : String :=
  if hasDependencyKeywords story then
    "Story may have dependencies based on keywords. Clarify if it can be worked on without external blockers."
  else "Assumed to be developable independently. Review for hidden dependencies."

/-- The technical-term scan of the Negotiable assessment. -/
def hasTechnicalTerms (story : String) : Bool :=
  TECHNICAL_KEYWORDS.any (fun t => lowerIncludes story t)

/-- Negotiable score: low on a technical term, else high. -/
def negotiableScoreOf (story : String) : Int :=
  if hasTechnicalTerms story then INVEST_DEFAULT_LOW else INVEST_DEFAULT_HIGH

/-- Negotiable justification. -/
def negotiableJustificationOf (story : String) : String :=
  if hasTechnicalTerms story then
    "Story might be too prescriptive with technical details. Focus on user needs, not implementation."
  else "Story seems to describe \x27what\x27 not \x27how\x27, allowing for implementation discussion."

/-- The hasClearValue test of the Valuable assessment: a regex match
with a non-empty (truthy) third capture whose trimmed length exceeds 5. -/
def hasClearValue (story : String) : Bool :=
  match storyMatch story with
  | some (_, _, v) => !(v == "") && decide ((jsTrim v).length > 5)
  | none => false

/-- Valuable score: 10 with a clear value clause, else low. -/
def valuableScoreOf (story : String) : Int :=
  if hasClearValue story then 10 else INVEST_DEFAULT_LOW

/-- Valuable justification, quoting the captured value clause when it
is clear. -/
def valuableJustificationOf (story : String) : String :=
  if hasClearValue story then
    "Value proposition \x27"
      ++ (match storyMatch story with | some (_, _, v) => v | none => "")
      ++ "\x27 seems clear."
  else
    "The \x27so that [value]\x27 part of the story is missing or unclear. State the benefit to the user or business."

/-- Estimable score: high when at least one AC line exists and the
story is longer than the short threshold, else medium. -/
def estimableScoreOf (story acText : String) : Int :=
  if (analyzeAcceptanceCriteria acText).criteria.length > 0
      ∧ story.length > SHORT_STORY_LENGTH then
    INVEST_DEFAULT_HIGH
  else INVEST_DEFAULT_MEDIUM

/-- Estimable justification. -/
def estimableJustificationOf (story acText : String) : String :=
  if (analyzeAcceptanceCriteria acText).criteria.length > 0
      ∧ story.length > SHORT_STORY_LENGTH then
    "Story and ACs provide a solid basis for estimation."
  else
    "Story or ACs may be too vague or missing, making estimation difficult. Please provide more detail."

/-- Small score: low when the story exceeds the long threshold or the
AC count exceeds the maximum, else high. -/
def smallScoreOf (story acText : String) : Int :=
  if story.length > LONG_STORY_LENGTH
      ∨ (analyzeAcceptanceCriteria acText).criteria.length > MAX_ACCEPTANCE_CRITERIA then
    INVEST_DEFAULT_LOW
  else INVEST_DEFAULT_HIGH

/-- Small justification. -/
def smallJustificationOf (story acText : String) : String :=
  if story.length > LONG_STORY_LENGTH
      ∨ (analyzeAcceptanceCriteria acText).criteria.length > MAX_ACCEPTANCE_CRITERIA then
    "Story or number of ACs seems large. Consider if it can be broken down into smaller, valuable pieces."
  else "Story appears to be a reasonable size, likely completable within a single sprint."

/-- Testable score: low with no AC line, else high when a testable
keyword was found anywhere and medium otherwise. -/
def testableScoreOf (acText : String) : Int :=
  if (analyzeAcceptanceCriteria acText).criteria.length > 0 then
    (if (analyzeAcceptanceCriteria acText).testableKeywordsFound then INVEST_DEFAULT_HIGH
     else INVEST_DEFAULT_MEDIUM)
  else INVEST_DEFAULT_LOW

/-- Testable justification, with the count of non-testable lines
appended when it is nonzero. -/
def testableJustificationOf (acText : String) : String :=
  if (analyzeAcceptanceCriteria acText).criteria.length > 0 then
    "Acceptance criteria provided. Ensure they are unambiguous and allow for clear pass/fail conditions."
      ++ (if (analyzeAcceptanceCriteria acText).nonTestableCount > 0 then
        " " ++ toString (analyzeAcceptanceCriteria acText).nonTestableCount
          ++ " AC(s) may benefit from clearer testable language (e.g., using \x27Verify that...\x27)."
      else "")
  else "Testability cannot be assessed without clear acceptance criteria."

/-- analyzeINVEST: the six assessments and their sum, in source order. -/
def analyzeINVEST (story acText : String) : InvestAnalysis :=
  ⟨independentScoreOf story + negotiableScoreOf story + valuableScoreOf story
     + estimableScoreOf story acText + smallScoreOf story acText + testableScoreOf acText,
   ⟨independentScoreOf story, independentJustificationOf story⟩,
   ⟨negotiableScoreOf story, negotiableJustificationOf story⟩,
   ⟨valuableScoreOf story, valuableJustificationOf story⟩,
   ⟨estimableScoreOf story acText, estimableJustificationOf story acText⟩,
   ⟨smallScoreOf story acText, smallJustificationOf story acText⟩,
   ⟨testableScoreOf acText, testableJustificationOf acText⟩⟩

/-- scoreBreakdown of the overall readiness block. -/
structure ScoreBreakdown where
  clarityRequirementAnalysis : Int
  investCriteriaAssessment : Int
deriving DecidableEq

/-- overallReadinessScore block of the report. -/
structure OverallReadiness where
  readinessRating : Int
  readinessCategory : String
  summary : String
  scoreBreakdown : ScoreBreakdown
deriving DecidableEq

/-- clarityAndRequirementAnalysis section of the report.  The code
spreads the analysis record and then attaches totalScore only on the
non-empty path; the keys present only there are Option fields. -/
structure ClaritySection where
  formatCheck : SubScore
  clarityAmbiguity : SubScore
  acceptanceCriteria : SubScore
  total : Option Int
  totalScore : Option Int
deriving DecidableEq

/-- investCriteriaAssessment section of the report, with the same
Option treatment of the keys attached only on the non-empty path. -/
structure InvestSection where
  independent : InvestItem
  negotiable : InvestItem
  valuable : InvestItem
  estimable : InvestItem
  small : InvestItem
  testable : InvestItem
  total : Option Int
  totalScore : Option Int
deriving DecidableEq

/-- actionableRecommendations block of the report. -/
structure Recommendations where
  suggestedImprovements : String
  storyDecomposition : List String
deriving DecidableEq

/-- The full report object returned by analyzeUserStory; the error key
exists only on the empty-input path. -/
structure Report where
  error : Option String
  overallReadinessScore : OverallReadiness
  clarityAndRequirementAnalysis : ClaritySection
  investCriteriaAssessment : InvestSection
  outstandingQueriesAndConflicts : List String
  actionableRecommendations : Recommendations
deriving DecidableEq

/-- generateQueriesAndRecommendations: the fixed rule list mapping
sub-scores below their thresholds to queries, improvements and
decomposition suggestions, in source evaluation order. -/
def generateQueriesAndRecommendations (clarityA : ClarityAnalysis)
    (investA : InvestAnalysis) : List String × Recommendations :=
  ((if clarityA.acceptanceCriteria.score < AC_PROVIDED then
      ["Could you provide or refine the acceptance criteria to be more specific and testable?"]
    else [])
    ++ (if investA.valuable.score < 10 then
      ["What is the specific value or benefit this story delivers?"] else [])
    ++ (if investA.small.score < INVEST_DEFAULT_HIGH then
      ["Is this story small enough for one sprint? If not, how can it be split?"] else [])
    ++ (if investA.testable.score < INVEST_DEFAULT_HIGH then
      ["Are the success conditions clear and testable? How would you verify this story is done?"]
    else [])
    ++ (if investA.independent.score < INVEST_DEFAULT_MEDIUM then
      ["Are there any hidden dependencies? Can this be developed independently?"] else []),
   ⟨(if ((if clarityA.formatCheck.score < FORMAT_SUCCESS then
          ["Rephrase story to fit the standard format: \"As a [persona], I want [goal], so that [value]\"."]
        else [])
        ++ (if clarityA.acceptanceCriteria.score < AC_PROVIDED then
          ["Refine ACs: " ++ clarityA.acceptanceCriteria.feedback] else [])
        ++ (if investA.valuable.score < 10 then
          ["Clarify value: " ++ investA.valuable.justification] else [])
        ++ (if investA.small.score < INVEST_DEFAULT_HIGH then
          ["Consider story size: " ++ investA.small.justification] else [])
        ++ (if investA.testable.score < INVEST_DEFAULT_HIGH then
          ["Improve testability: " ++ investA.testable.justification] else [])
        ++ (if investA.independent.score < INVEST_DEFAULT_MEDIUM then
          ["Clarify independence: " ++ investA.independent.justification] else [])).length > 0 then
      joinSep "\n"
        ((if clarityA.formatCheck.score < FORMAT_SUCCESS then
            ["Rephrase story to fit the standard format: \"As a [persona], I want [goal], so that [value]\"."]
          else [])
          ++ (if clarityA.acceptanceCriteria.score < AC_PROVIDED then
            ["Refine ACs: " ++ clarityA.acceptanceCriteria.feedback] else [])
          ++ (if investA.valuable.score < 10 then
            ["Clarify value: " ++ investA.valuable.justification] else [])
          ++ (if investA.small.score < INVEST_DEFAULT_HIGH then
            ["Consider story size: " ++ investA.small.justification] else [])
          ++ (if investA.testable.score < INVEST_DEFAULT_HIGH then
            ["Improve testability: " ++ investA.testable.justification] else [])
          ++ (if investA.independent.score < INVEST_DEFAULT_MEDIUM then
            ["Clarify independence: " ++ investA.independent.justification] else []))
    else "Story is in good shape. No major improvements suggested."),
    (if investA.small.score < INVEST_DEFAULT_HIGH then
      ["If the story is too large, consider splitting it by acceptance criteria, or by sub-steps in the user\x27s workflow. Each smaller story should still be valuable and testable."]
    else [])⟩)

/-- generateEmptyReport: the fixed report for invalid initial input.
The two totalScore keys and the error key are not attached there, and
the category label is looked up at score 0 (Option models the lookup
as in the code). -/
def generateEmptyReport : Option Report :=
  match getReadinessCategory 0 with
  | none => none
  | some cat => some
    ⟨none,
     ⟨0, cat.label, "Story is empty or missing. Please provide a user story.", ⟨0, 0⟩⟩,
     ⟨⟨0, "No story provided."⟩, ⟨0, "No story provided."⟩, ⟨0, "No story provided."⟩,
      none, none⟩,
     ⟨⟨0, "No story provided."⟩, ⟨0, "No story provided."⟩, ⟨0, "No story provided."⟩,
      ⟨0, "No story provided."⟩, ⟨0, "No story provided."⟩, ⟨0, "No story provided."⟩,
      none, none⟩,
     ["What is the user story you would like to analyze?"],
     ⟨"Please provide the user story text.", []⟩⟩

/-- JavaScript Math.round: round half towards positive infinity. -/
def jsRound (q : ℚ) : Int := ⌊q + 1 / 2⌋

/-- The percentage computed by analyzeUserStory:
Math.round((actualScore / totalPossibleScore) * 100) with
totalPossibleScore = 40 + 60.  Over the rationals the floating-point
detour is exact for the integer scores involved. -/
def overallPercentageOf (story acText : String) : Int :=
  jsRound (((((analyzeClarityAndRequirement story acText).total
    + (analyzeINVEST story acText).total : Int) : ℚ) / ((40 : ℚ) + 60)) * 100)

/-- analyzeUserStory: the empty-input short circuit (the guard
!story || typeof story !== string || story.trim() === '' collapses,
for string inputs, to the story being empty or blank), or the full
report assembled from the two analyses, the readiness category and the
generated queries and recommendations. -/
def analyzeUserStory (story acText : String) : Option Report :=
  if story = "" ∨ jsTrim story = "" then
    generateEmptyReport.map (fun r =>
      ⟨some "Story is empty or missing. Please provide a user story to analyze.",
       r.overallReadinessScore, r.clarityAndRequirementAnalysis,
       r.investCriteriaAssessment, r.outstandingQueriesAndConflicts,
       r.actionableRecommendations⟩)
  else
    match getReadinessCategory (overallPercentageOf story acText) with
    | none => none
    | some cat => some
      ⟨none,
       ⟨overallPercentageOf story acText, cat.label, cat.summary,
        ⟨(analyzeClarityAndRequirement story acText).total,
         (analyzeINVEST story acText).total⟩⟩,
       ⟨(analyzeClarityAndRequirement story acText).formatCheck,
        (analyzeClarityAndRequirement story acText).clarityAmbiguity,
        (analyzeClarityAndRequirement story acText).acceptanceCriteria,
        some (analyzeClarityAndRequirement story acText).total,
        some (analyzeClarityAndRequirement story acText).total⟩,
       ⟨(analyzeINVEST story acText).independent,
        (analyzeINVEST story acText).negotiable,
        (analyzeINVEST story acText).valuable,
        (analyzeINVEST story acText).estimable,
        (analyzeINVEST story acText).small,
        (analyzeINVEST story acText).testable,
        some (analyzeINVEST story acText).total,
        some (analyzeINVEST story acText).total⟩,
       (generateQueriesAndRecommendations (analyzeClarityAndRequirement story acText)
         (analyzeINVEST story acText)).1,
       (generateQueriesAndRecommendations (analyzeClarityAndRequirement story acText)
         (analyzeINVEST story acText)).2⟩

/-- The band the classifier selects for each non-negative score. -/
def bandFor (p : Int) : Category :=
  if p ≥ 90 then CAT_EXCELLENT
  else if p ≥ 71 then CAT_STANDARD
  else if p ≥ 50 then CAT_IMPROVE
  else CAT_NOT_READY

/-- The report the engine returns for empty or blank story input: the
fixed empty report with the error message attached. -/
def emptyReportValue : Report :=
  ⟨some "Story is empty or missing. Please provide a user story to analyze.",
   ⟨0, "🚫 Not Ready – Fundamentally Incomplete",
    "Story is empty or missing. Please provide a user story.", ⟨0, 0⟩⟩,
   ⟨⟨0, "No story provided."⟩, ⟨0, "No story provided."⟩, ⟨0, "No story provided."⟩,
    none, none⟩,
   ⟨⟨0, "No story provided."⟩, ⟨0, "No story provided."⟩, ⟨0, "No story provided."⟩,
    ⟨0, "No story provided."⟩, ⟨0, "No story provided."⟩, ⟨0, "No story provided."⟩,
    none, none⟩,
   ["What is the user story you would like to analyze?"],
   ⟨"Please provide the user story text.", []⟩⟩

/-- The spec description of the readiness classifier: select the first
band, in descending threshold order 90, 71, 50, 0, whose threshold the
percentage meets or exceeds. -/
def readinessBandSpec (p : Int) : Option Category :=
  if p ≥ 90 then some CAT_EXCELLENT
  else if p ≥ 71 then some CAT_STANDARD
  else if p ≥ 50 then some CAT_IMPROVE
  else if p ≥ 0 then some CAT_NOT_READY
  else none

/-- Whether a report carries every field of the declared report shape;
in this embedding all declared keys are structure fields except the two
totalScore keys, which the code attaches only on the non-empty path and
which are therefore the Option fields this predicate tests. -/
def hasDeclaredReportShape (r : Report) : Bool :=
  r.clarityAndRequirementAnalysis.totalScore.isSome
    && r.investCriteriaAssessment.totalScore.isSome

/-- The possible format sub-scores. -/
lemma formatScoreOf_cases (story : String) :
    formatScoreOf story = 2 ∨ formatScoreOf story = 10 := by
  unfold formatScoreOf FORMAT_SUCCESS FORMAT_FAIL
  split
  · exact Or.inr rfl
  · exact Or.inl rfl

/-- Bounds on the capped clarity sub-score. -/
lemma clarityScoreOf_bounds (story : String) :
    10 ≤ clarityScoreOf story ∧ clarityScoreOf story ≤ 15 := by
  unfold clarityScoreOf CLARITY_BASE CLARITY_BONUS_CONCISE CLARITY_BONUS_SPECIFIC
  split <;> split <;> decide

/-- The possible acceptance-criteria sub-scores. -/
lemma acScoreOf_cases (acText : String) :
    acScoreOf acText = 0 ∨ acScoreOf acText = 5 ∨ acScoreOf acText = 10
      ∨ acScoreOf acText = 15 := by
  unfold acScoreOf AC_MISSING AC_EMPTY AC_PROVIDED AC_NON_TESTABLE_DEDUCTION
  split
  · exact Or.inl rfl
  · split
    · split
      · exact Or.inr (Or.inr (Or.inl rfl))
      · exact Or.inr (Or.inr (Or.inr rfl))
    · exact Or.inr (Or.inl rfl)

/-- The possible Independent sub-scores. -/
lemma independentScoreOf_cases (story : String) :
    independentScoreOf story = 3 ∨ independentScoreOf story = 6 := by
  unfold independentScoreOf INVEST_DEFAULT_LOW INVEST_DEFAULT_MEDIUM
  split
  · exact Or.inl rfl
  · exact Or.inr rfl

/-- The possible Negotiable sub-scores. -/
lemma negotiableScoreOf_cases (story : String) :
    negotiableScoreOf story = 3 ∨ negotiableScoreOf story = 8 := by
  unfold negotiableScoreOf INVEST_DEFAULT_LOW INVEST_DEFAULT_HIGH
  split
  · exact Or.inl rfl
  · exact Or.inr rfl

/-- The possible Valuable sub-scores. -/
lemma valuableScoreOf_cases (story : String) :
    valuableScoreOf story = 3 ∨ valuableScoreOf story = 10 := by
  unfold valuableScoreOf INVEST_DEFAULT_LOW
  split
  · exact Or.inr rfl
  · exact Or.inl rfl

/-- The possible Estimable sub-scores. -/
lemma estimableScoreOf_cases (story acText : String) :
    estimableScoreOf story acText = 6 ∨ estimableScoreOf story acText = 8 := by
  unfold estimableScoreOf INVEST_DEFAULT_MEDIUM INVEST_DEFAULT_HIGH
  split
  · exact Or.inr rfl
  · exact Or.inl rfl

/-- The possible Small sub-scores. -/
lemma smallScoreOf_cases (story acText : String) :
    smallScoreOf story acText = 3 ∨ smallScoreOf story acText = 8 := by
  unfold smallScoreOf INVEST_DEFAULT_LOW INVEST_DEFAULT_HIGH
  split
  · exact Or.inl rfl
  · exact Or.inr rfl

/-- The possible Testable sub-scores. -/
lemma testableScoreOf_cases (acText : String) :
    testableScoreOf acText = 3 ∨ testableScoreOf acText = 6
      ∨ testableScoreOf acText = 8 := by
  unfold testableScoreOf INVEST_DEFAULT_LOW INVEST_DEFAULT_MEDIUM INVEST_DEFAULT_HIGH
  split
  · split
    · exact Or.inr (Or.inr rfl)
    · exact Or.inr (Or.inl rfl)
  · exact Or.inl rfl

/-- Bounds on the clarity total. -/
lemma clarity_total_bounds (story acText : String) :
    12 ≤ (analyzeClarityAndRequirement story acText).total
      ∧ (analyzeClarityAndRequirement story acText).total ≤ 40 := by
  have hf := formatScoreOf_cases story
  have hc := clarityScoreOf_bounds story
  have ha := acScoreOf_cases acText
  simp only [analyzeClarityAndRequirement]
  rcases hf with hf | hf <;>
    rcases ha with ha | ha | ha | ha <;>
      constructor <;> omega

/-- Bounds on the INVEST total, which in fact lies in [21, 48]. -/
lemma invest_total_bounds (story acText : String) :
    21 ≤ (analyzeINVEST story acText).total
      ∧ (analyzeINVEST story acText).total ≤ 48 := by
  have h1 := independentScoreOf_cases story
  have h2 := negotiableScoreOf_cases story
  have h3 := valuableScoreOf_cases story
  have h4 := estimableScoreOf_cases story acText
  have h5 := smallScoreOf_cases story acText
  have h6 := testableScoreOf_cases acText
  simp only [analyzeINVEST]
  rcases h1 with h1 | h1 <;> rcases h2 with h2 | h2 <;> rcases h3 with h3 | h3 <;>
    rcases h4 with h4 | h4 <;> rcases h5 with h5 | h5 <;>
      rcases h6 with h6 | h6 | h6 <;> constructor <;> omega

/-- Rounding the percentage expression of the engine returns the raw
total: (a / (40 + 60)) * 100 is exactly a over the rationals. -/
lemma jsRound_engine (a : Int) :
    jsRound (((a : ℚ) / ((40 : ℚ) + 60)) * 100) = a := by
  have h : ((a : ℚ) / ((40 : ℚ) + 60)) * 100 = (a : ℚ) := by
    norm_num
  rw [h]
  unfold jsRound
  rw [Int.floor_int_add]
  norm_num

/-- The specification form of the same rounding:
round(100 * total / 100) is the raw total. -/
lemma jsRound_spec_form (a : Int) :
    jsRound ((100 : ℚ) * (a : ℚ) / 100) = a := by
  have h : (100 : ℚ) * (a : ℚ) / 100 = (a : ℚ) := by
    norm_num
  rw [h]
  unfold jsRound
  rw [Int.floor_int_add]
  norm_num

/-- The percentage computed on the non-empty path equals the sum of
the two totals. -/
lemma overallPercentageOf_eq (story acText : String) :
    overallPercentageOf story acText
      = (analyzeClarityAndRequirement story acText).total
        + (analyzeINVEST story acText).total := by
  unfold overallPercentageOf
  exact jsRound_engine _

/-- On non-negative scores the find-based classifier returns exactly
the band of bandFor. -/
lemma getReadinessCategory_eq (p : Int) (hp : 0 ≤ p) :
    getReadinessCategory p = some (bandFor p) := by
  unfold getReadinessCategory READINESS_CATEGORIES bandFor
  unfold CAT_EXCELLENT CAT_STANDARD CAT_IMPROVE CAT_NOT_READY
  by_cases h90 : p ≥ 90
  · simp [List.find?, h90]
  · by_cases h71 : p ≥ 71
    · simp [List.find?, h90, h71]
    · by_cases h50 : p ≥ 50
      · simp [List.find?, h90, h71, h50]
      · simp [List.find?, h90, h71, h50, hp]

/-- On empty or blank story input the engine returns exactly the fixed
empty report, whatever the acceptance criteria are. -/
lemma analyzeUserStory_blank (story acText : String)
    (h : story = "" ∨ jsTrim story = "") :
    analyzeUserStory story acText = some emptyReportValue := by
  unfold analyzeUserStory
  rw [if_pos h]
  rfl

/-- On a story that is neither empty nor blank the engine returns the
fully assembled report. -/
lemma analyzeUserStory_nonblank (story acText : String)
    (h : ¬(story = "" ∨ jsTrim story = "")) :
    analyzeUserStory story acText = some
      ⟨none,
       ⟨overallPercentageOf story acText,
        (bandFor (overallPercentageOf story acText)).label,
        (bandFor (overallPercentageOf story acText)).summary,
        ⟨(analyzeClarityAndRequirement story acText).total,
         (analyzeINVEST story acText).total⟩⟩,
       ⟨(analyzeClarityAndRequirement story acText).formatCheck,
        (analyzeClarityAndRequirement story acText).clarityAmbiguity,
        (analyzeClarityAndRequirement story acText).acceptanceCriteria,
        some (analyzeClarityAndRequirement story acText).total,
        some (analyzeClarityAndRequirement story acText).total⟩,
       ⟨(analyzeINVEST story acText).independent,
        (analyzeINVEST story acText).negotiable,
        (analyzeINVEST story acText).valuable,
        (analyzeINVEST story acText).estimable,
        (analyzeINVEST story acText).small,
        (analyzeINVEST story acText).testable,
        some (analyzeINVEST story acText).total,
        some (analyzeINVEST story acText).total⟩,
       (generateQueriesAndRecommendations (analyzeClarityAndRequirement story acText)
         (analyzeINVEST story acText)).1,
       (generateQueriesAndRecommendations (analyzeClarityAndRequirement story acText)
         (analyzeINVEST story acText)).2⟩ := by
  have hp : 0 ≤ overallPercentageOf story acText := by
    rw [overallPercentageOf_eq]
    have h1 := clarity_total_bounds story acText
    have h2 := invest_total_bounds story acText
    omega
  unfold analyzeUserStory
  rw [if_neg h, getReadinessCategory_eq _ hp]

/-- A blank trimmed story forces the blank guard; conversely a story
whose trimmed form is non-empty passes it. -/
lemma not_blank_of_trim (story : String) (h : jsTrim story ≠ "") :
    ¬(story = "" ∨ jsTrim story = "") := by
  rintro (rfl | h2)
  · exact h rfl
  · exact h h2

/-- C5: for every pair of text inputs the engine terminates normally
with a report: the category lookup never comes back empty, so the
one modelled failure path (an undefined readiness category, which in
JavaScript would throw) is never taken, and the total model itself
rules out any other exception. -/
theorem C5_never_throws (story acText : String) :
    (analyzeUserStory story acText).isSome = true := by
  by_cases h : story = "" ∨ jsTrim story = ""
  · rw [analyzeUserStory_blank story acText h]
    rfl
  · rw [analyzeUserStory_nonblank story acText h]
    rfl

/-- C6: for every non-empty story the format sub-score is 10 exactly
when the story matches the canonical template regex (case-insensitive)
and 2 otherwise, and it is never 0. -/
theorem C6_format_score (story acText : String) (h : story ≠ "") :
    ((analyzeClarityAndRequirement story acText).formatCheck.score
        = if (storyMatch story).isSome then 10 else 2) ∧
    (analyzeClarityAndRequirement story acText).formatCheck.score ≠ 0 := by
  constructor
  · simp only [analyzeClarityAndRequirement]
    rfl
  · simp only [analyzeClarityAndRequirement]
    rcases formatScoreOf_cases story with h2 | h2 <;> rw [h2] <;> decide

/-- C6 witness: the format sub-score at a concrete non-empty story. -/
theorem C6_format_score_witness :
    ("hello" : String) ≠ "" ∧
    (((analyzeClarityAndRequirement "hello" "").formatCheck.score
        = if (storyMatch "hello").isSome then 10 else 2) ∧
      (analyzeClarityAndRequirement "hello" "").formatCheck.score ≠ 0) :=
  ⟨by decide, C6_format_score "hello" "" (by decide)⟩

/-- C7: the acceptance-criteria sub-score is 15 for the three
Given/When/Then lines (all testable, no deduction) and 10 for the two
keyword-free lines (the 5-point deduction applies), whatever the story
text is. -/
theorem C7_ac_subscore_examples (story : String) :
    (analyzeClarityAndRequirement story "Given X\nWhen Y\nThen Z").acceptanceCriteria.score
        = 15 ∧
    (analyzeClarityAndRequirement story "It should just work\nMake it nice").acceptanceCriteria.score
        = 10 := by
  constructor <;>
    · simp only [analyzeClarityAndRequirement]
      decide

/-- C8: on every non-negative percentage the classifier agrees with the
spec selection rule: the first band in descending threshold order 90,
71, 50, 0 whose threshold the percentage meets or exceeds. -/
theorem C8_classifier_refines_spec (p : Int) (hp : 0 ≤ p) :
    getReadinessCategory p = readinessBandSpec p := by
  rw [getReadinessCategory_eq p hp]
  unfold readinessBandSpec bandFor
  split_ifs <;> first | rfl | omega

/-- C8 witness: the classifier at the concrete percentage 66. -/
theorem C8_classifier_refines_spec_witness :
    (0 : Int) ≤ 66 ∧ getReadinessCategory 66 = readinessBandSpec 66 :=
  ⟨by decide, C8_classifier_refines_spec 66 (by decide)⟩

/-- C9: the engine is deterministic: two calls on identical story and
acceptance-criteria texts yield identical reports in every field. -/
theorem C9_deterministic (story acText : String) (r1 r2 : Report)
    (h1 : analyzeUserStory story acText = some r1)
    (h2 : analyzeUserStory story acText = some r2) : r1 = r2 :=
  Option.some.inj (h1.symm.trans h2)

/-- C9 witness: two identical concrete calls produce the same report. -/
theorem C9_deterministic_witness :
    analyzeUserStory "" "" = some emptyReportValue ∧
    emptyReportValue = emptyReportValue :=
  ⟨analyzeUserStory_blank "" "" (Or.inl rfl),
   C9_deterministic "" "" emptyReportValue emptyReportValue
     (analyzeUserStory_blank "" "" (Or.inl rfl))
     (analyzeUserStory_blank "" "" (Or.inl rfl))⟩

/-- C1: for every story that is non-empty in the sense of the engine
guard (non-blank after trimming) and any acceptance criteria, the
returned clarity total lies in [12, 40], the INVEST total lies in
[18, 60], and the overall readiness percentage lies in [0, 100] and
equals round(100 * (clarity_total + invest_total) / 100). -/
theorem C1_totals_bounds (story acText : String) (h : jsTrim story ≠ "") :
    ∃ r, analyzeUserStory story acText = some r ∧
      12 ≤ r.overallReadinessScore.scoreBreakdown.clarityRequirementAnalysis ∧
      r.overallReadinessScore.scoreBreakdown.clarityRequirementAnalysis ≤ 40 ∧
      18 ≤ r.overallReadinessScore.scoreBreakdown.investCriteriaAssessment ∧
      r.overallReadinessScore.scoreBreakdown.investCriteriaAssessment ≤ 60 ∧
      0 ≤ r.overallReadinessScore.readinessRating ∧
      r.overallReadinessScore.readinessRating ≤ 100 ∧
      r.overallReadinessScore.readinessRating
        = jsRound ((100 : ℚ)
            * ((r.overallReadinessScore.scoreBreakdown.clarityRequirementAnalysis
                + r.overallReadinessScore.scoreBreakdown.investCriteriaAssessment : Int) : ℚ)
            / 100) := by
  have h1 := clarity_total_bounds story acText
  have h2 := invest_total_bounds story acText
  have hp := overallPercentageOf_eq story acText
  refine ⟨_, analyzeUserStory_nonblank story acText (not_blank_of_trim story h),
    ?_, ?_, ?_, ?_, ?_, ?_, ?_⟩ <;> dsimp only
  · exact h1.1
  · exact h1.2
  · omega
  · omega
  · omega
  · omega
  · rw [jsRound_spec_form]
    omega

/-- C1 witness: the bounds at a concrete non-blank story. -/
theorem C1_totals_bounds_witness :
    jsTrim "hello" ≠ "" ∧
    (∃ r, analyzeUserStory "hello" "" = some r ∧
      12 ≤ r.overallReadinessScore.scoreBreakdown.clarityRequirementAnalysis ∧
      r.overallReadinessScore.scoreBreakdown.clarityRequirementAnalysis ≤ 40 ∧
      18 ≤ r.overallReadinessScore.scoreBreakdown.investCriteriaAssessment ∧
      r.overallReadinessScore.scoreBreakdown.investCriteriaAssessment ≤ 60 ∧
      0 ≤ r.overallReadinessScore.readinessRating ∧
      r.overallReadinessScore.readinessRating ≤ 100 ∧
      r.overallReadinessScore.readinessRating
        = jsRound ((100 : ℚ)
            * ((r.overallReadinessScore.scoreBreakdown.clarityRequirementAnalysis
                + r.overallReadinessScore.scoreBreakdown.investCriteriaAssessment : Int) : ℚ)
            / 100)) :=
  ⟨by decide, C1_totals_bounds "hello" "" (by decide)⟩

/-- C2: the engine output on the reset-password example story with
empty acceptance criteria: format 10, AC 0 with the missing feedback,
valuable 10, independent 6, negotiable 8, testable 3, small 8,
estimable 6, INVEST total 41, clarity total 25, overall rating 66 and
the Requires Improvement readiness category. -/
theorem C2_reset_password_example :
    (analyzeUserStory
        "As a user, I want to reset my password, so that I can regain access to my account" "").map
      (fun r =>
        (r.clarityAndRequirementAnalysis.formatCheck.score,
         r.clarityAndRequirementAnalysis.acceptanceCriteria.score,
         r.clarityAndRequirementAnalysis.acceptanceCriteria.feedback,
         r.investCriteriaAssessment.valuable.score,
         r.investCriteriaAssessment.independent.score,
         r.investCriteriaAssessment.negotiable.score,
         r.investCriteriaAssessment.testable.score,
         r.investCriteriaAssessment.small.score,
         r.investCriteriaAssessment.estimable.score,
         r.investCriteriaAssessment.totalScore,
         r.clarityAndRequirementAnalysis.totalScore,
         r.overallReadinessScore.readinessRating,
         r.overallReadinessScore.readinessCategory))
    = some (10, 0,
        "Acceptance criteria are missing. Clear, testable ACs are essential. Consider using the \x27Given/When/Then\x27 format.",
        10, 6, 8, 3, 8, 6, some 41, some 25, 66,
        "❗ Requires Improvement – Needs Refinement") := by
  rw [analyzeUserStory_nonblank _ _ (by decide), Option.map_some']
  dsimp only
  rw [overallPercentageOf_eq]
  rfl

/-- C3: an empty or blank story short-circuits to the fixed empty
report: rating 0, the Not Ready category and exactly the one fixed
outstanding query, and the acceptance-criteria text has no effect. -/
theorem C3_blank_story (story acText acText2 : String)
    (h : story = "" ∨ jsTrim story = "") :
    analyzeUserStory story acText = analyzeUserStory story acText2 ∧
    ∃ r, analyzeUserStory story acText = some r ∧
      r.overallReadinessScore.readinessRating = 0 ∧
      r.overallReadinessScore.readinessCategory
        = "🚫 Not Ready – Fundamentally Incomplete" ∧
      r.outstandingQueriesAndConflicts
        = ["What is the user story you would like to analyze?"] := by
  refine ⟨?_, emptyReportValue, analyzeUserStory_blank story acText h, rfl, rfl, rfl⟩
  rw [analyzeUserStory_blank story acText h, analyzeUserStory_blank story acText2 h]

/-- C3 witness: the empty story with two different acceptance-criteria
texts. -/
theorem C3_blank_story_witness :
    (("" : String) = "" ∨ jsTrim "" = "") ∧
    (analyzeUserStory "" "Given X" = analyzeUserStory "" "something else" ∧
     ∃ r, analyzeUserStory "" "Given X" = some r ∧
       r.overallReadinessScore.readinessRating = 0 ∧
       r.overallReadinessScore.readinessCategory
         = "🚫 Not Ready – Fundamentally Incomplete" ∧
       r.outstandingQueriesAndConflicts
         = ["What is the user story you would like to analyze?"]) :=
  ⟨Or.inl rfl, C3_blank_story "" "Given X" "something else" (Or.inl rfl)⟩

/-- C4: on every input the Independent sub-score is at most 6, the
INVEST total is at most 48, the overall readiness rating is at most 88,
and the Excellent category label is never returned. -/
theorem C4_rating_cap (story acText : String) :
    ∃ r, analyzeUserStory story acText = some r ∧
      (analyzeINVEST story acText).independent.score ≤ 6 ∧
      (analyzeINVEST story acText).total ≤ 48 ∧
      r.overallReadinessScore.readinessRating ≤ 88 ∧
      r.overallReadinessScore.readinessCategory
        ≠ "✅ Excellent – Ready for Development" := by
  have hind : (analyzeINVEST story acText).independent.score ≤ 6 := by
    simp only [analyzeINVEST]
    rcases independentScoreOf_cases story with h2 | h2 <;> omega
  have htot := invest_total_bounds story acText
  by_cases h : story = "" ∨ jsTrim story = ""
  · exact ⟨_, analyzeUserStory_blank story acText h, hind, htot.2, by decide, by decide⟩
  · refine ⟨_, analyzeUserStory_nonblank story acText h, hind, htot.2, ?_, ?_⟩ <;>
      dsimp only
    · have h1 := clarity_total_bounds story acText
      have hp := overallPercentageOf_eq story acText
      omega
    · have h1 := clarity_total_bounds story acText
      have hp := overallPercentageOf_eq story acText
      have h88 : overallPercentageOf story acText ≤ 88 := by omega
      unfold bandFor
      rw [if_neg (by omega)]
      split_ifs <;> decide

/-- C10 counterexample: the claim fails on the empty-input report,
which carries neither of the two totalScore fields of the declared
report shape. -/
theorem C10_shape_counterexample :
    (analyzeUserStory "" "").map hasDeclaredReportShape = some false := by
  rw [analyzeUserStory_blank "" "" (Or.inl rfl)]
  rfl

/-- C10 amended: every report produced for a non-blank story carries
all fields of the declared report shape, the two conditionally
attached totalScore fields included; only the empty-input report lacks
those two fields. -/
theorem C10_shape_nonblank (story acText : String) (h : jsTrim story ≠ "") :
    (analyzeUserStory story acText).map hasDeclaredReportShape = some true := by
  rw [analyzeUserStory_nonblank story acText (not_blank_of_trim story h)]
  rfl

/-- C10 witness: the full shape at a concrete non-blank story. -/
theorem C10_shape_nonblank_witness :
    jsTrim "hi" ≠ "" ∧
    (analyzeUserStory "hi" "").map hasDeclaredReportShape = some true :=
  ⟨by decide, C10_shape_nonblank "hi" "" (by decide)⟩

end BAToolbox
